import Mathlib

/-!
Shallow embedding of the RonDB REST-server connection and handle pool
(RDRSRonDBConnection in rdrs_rondb_connection.cpp): the connection object,
the elastic NDB-handle pool, the reconnection coordinator and the shutdown
protocol.  The external NDB driver (cluster connection, per-handle init,
thread spawning) is modelled by oracle inputs; mutex-guarded blocks become
sequential state transformations.
-/

/-- Modelled from the spec: status.hpp is not part of the sources.  The spec
gives the status shape http_code, code, classification, message, where
http_code = SUCCESS denotes OK. -/
structure RS_Status where
  http_code : Nat
  code : Int
  classification : Nat
  message : String
deriving Repr, DecidableEq

/-- Modelled from the spec: the http code denoting OK. -/
def SUCCESS : Nat := 200

/-- Modelled from the spec: the OK status, with http_code = SUCCESS. -/
def RS_OK : RS_Status :=
  { http_code := SUCCESS, code := 0, classification := 0, message := "" }

/-- Modelled from the spec: a server error status carrying a message; its
http_code differs from SUCCESS. -/
def RS_SERVER_ERROR (msg : String) : RS_Status :=
  { http_code := 500, code := -1, classification := 0, message := msg }

/-- Modelled from the spec: error_strings.h is not part of the sources; the
error constants are distinct message texts identified by their numbers.
ERROR_002 is ConnectFailed. -/
def ERROR_002 : String := "ERROR_002"

/-- Modelled from the spec: ERROR_003 is NotReady (wait_until_ready failed). -/
def ERROR_003 : String := "ERROR_003"

/-- Modelled from the spec: ERROR_004 is HandleInitFailed. -/
def ERROR_004 : String := "ERROR_004"

/-- Modelled from the spec: ERROR_033 is NotConnected. -/
def ERROR_033 : String := "ERROR_033"

/-- Modelled from the spec: ERROR_034 is ShutdownRejected. -/
def ERROR_034 : String := "ERROR_034"

/-- Modelled from the spec: ERROR_036 is ReconnectInFlight. -/
def ERROR_036 : String := "ERROR_036"

/-- Modelled from the spec: the driver classification value signalling loss
of connectivity to the cluster (NdbError.UnknownResultError).  Only its
identity as a distinguished value matters here. -/
def UnknownResultError : Nat := 8

/-- The connection state enum of the pool (DISCONNECTED, CONNECTED). -/
inductive STATE where
  | DISCONNECTED
  | CONNECTED
deriving Repr, DecidableEq

/-- The RonDB_Stats record: counters and flags kept under connectionInfoMutex. -/
structure RonDB_Stats where
  ndb_objects_available : Nat
  ndb_objects_count : Nat
  ndb_objects_created : Nat
  ndb_objects_deleted : Nat
  is_reconnection_in_progress : Bool
  is_shutdown : Bool
  is_shutting_down : Bool
  connection_state : STATE
deriving Repr, DecidableEq

/-- The pool state of RDRSRonDBConnection.  NDB handles and the cluster
connection are identified by numeric ids; nullable pointers become Option.
connection_string is Option because Shutdown(end = true) frees it. -/
structure RDRSRonDBConnection where
  stats : RonDB_Stats
  availableNdbObjects : List Nat
  allAvailableNdbObjects : List Nat
  ndbConnection : Option Nat
  reconnectionThread : Option Nat
  connection_string : Option String
  m_node_id : Nat
  connection_retries : Nat
  connection_retry_delay_in_sec : Nat
deriving Repr, DecidableEq

/-- The constructor RDRSRonDBConnection::RDRSRonDBConnection: zeroed counters,
cleared flags, DISCONNECTED, copied connection string, null connection and
null reconnection thread. -/
def mkRDRSRonDBConnection (connection_string : String) (node_id : Nat)
    (connection_retries : Nat) (connection_retry_delay_in_sec : Nat) :
    RDRSRonDBConnection :=
  { stats :=
      { ndb_objects_available := 0
        ndb_objects_count := 0
        ndb_objects_created := 0
        ndb_objects_deleted := 0
        is_reconnection_in_progress := false
        is_shutdown := false
        is_shutting_down := false
        connection_state := STATE.DISCONNECTED }
    availableNdbObjects := []
    allAvailableNdbObjects := []
    ndbConnection := none
    reconnectionThread := none
    connection_string := some connection_string
    m_node_id := node_id
    connection_retries := connection_retries
    connection_retry_delay_in_sec := connection_retry_delay_in_sec }

/-- Oracle for the driver interactions of one Connect call: the identity of
the newly built Ndb_cluster_connection and the return codes of connect and
wait_until_ready, plus the latest-error data read on the NotReady path. -/
structure DriverEnv where
  newConnId : Nat
  connectRet : Int
  waitReadyRet : Int
  latest_error : Int
  latest_error_msg : String
deriving Repr, DecidableEq

/-- RDRSRonDBConnection::Connect.  Returns none where the source hits a
require() assertion (process abort): Connect on an already CONNECTED pool or
with a non-null ndbConnection.  Otherwise returns the new state and status.
On the two driver-failure paths the source returns without deleting or
nulling the just-allocated ndbConnection. -/
def Connect (c : RDRSRonDBConnection) (env : DriverEnv) :
    Option (RDRSRonDBConnection × RS_Status) :=
  if c.stats.is_shutdown || c.stats.is_shutting_down then
    some (c, RS_SERVER_ERROR ERROR_034)
  else if c.stats.connection_state = STATE.CONNECTED then
    none
  else
    match c.ndbConnection with
    | some _ => none
    | none =>
      let c1 := { c with ndbConnection := some env.newConnId }
      if env.connectRet ≠ 0 then
        some (c1, RS_SERVER_ERROR
          (ERROR_002 ++ " RetCode: " ++ toString env.connectRet))
      else if env.waitReadyRet ≠ 0 then
        some (c1, RS_SERVER_ERROR
          (ERROR_003 ++ " RetCode: " ++ toString env.waitReadyRet ++
           " Lastest Error: " ++ toString env.latest_error ++
           " Lastest Error Msg: " ++ env.latest_error_msg))
      else
        some ({ c1 with
                 stats := { c1.stats with connection_state := STATE.CONNECTED } },
              RS_OK)

/-- RDRSRonDBConnection::Reconnect.  If a reconnection is already in progress
the call returns ERROR_036 and changes nothing.  Otherwise it sets the flag,
destroys any stale worker descriptor and spawns a new worker thread;
spawnOk models whether NdbThread_Create succeeds (on failure the source only
logs, leaving the flag set). -/
def Reconnect (c : RDRSRonDBConnection) (newWorkerId : Nat) (spawnOk : Bool) :
    RDRSRonDBConnection × RS_Status :=
  if c.stats.is_reconnection_in_progress then
    (c, RS_SERVER_ERROR ERROR_036)
  else
    ({ c with
        stats := { c.stats with is_reconnection_in_progress := true }
        reconnectionThread := if spawnOk then some newWorkerId else none },
     RS_OK)

/-- Oracle for one GetNdbObject call: the identity of the Ndb handle that
new Ndb(...) would build, its init() return code, and the worker oracle for
a Reconnect the call may trigger. -/
structure AcquireEnv where
  newHandleId : Nat
  initRet : Int
  newWorkerId : Nat
  spawnOk : Bool
deriving Repr, DecidableEq

/-- RDRSRonDBConnection::GetNdbObject.  Returns (new state, value left in the
out parameter, status).  In the lazy-grow branch with a failing init() the
source executes `delete ndb_object`, deleting the out-parameter pointer
rather than the new handle, and then still increments ndb_objects_created
and ndb_objects_count and records the handle in allAvailableNdbObjects; the
model mirrors this: pool state is as on the success path, only the returned
status differs. -/
def GetNdbObject (c : RDRSRonDBConnection) (env : AcquireEnv) :
    RDRSRonDBConnection × Option Nat × RS_Status :=
  if c.stats.is_shutdown || c.stats.is_shutting_down then
    (c, none, RS_SERVER_ERROR ERROR_034)
  else if c.stats.connection_state ≠ STATE.CONNECTED then
    if !c.stats.is_reconnection_in_progress then
      ((Reconnect c env.newWorkerId env.spawnOk).1, none,
       RS_SERVER_ERROR ERROR_033)
    else
      (c, none, RS_SERVER_ERROR ERROR_033)
  else
    match c.availableNdbObjects with
    | [] =>
      let ret_status :=
        if env.initRet ≠ 0 then
          RS_SERVER_ERROR (ERROR_004 ++ " RetCode: " ++ toString env.initRet)
        else RS_OK
      ({ c with
          stats := { c.stats with
            ndb_objects_created := c.stats.ndb_objects_created + 1
            ndb_objects_count := c.stats.ndb_objects_count + 1 }
          allAvailableNdbObjects := c.allAvailableNdbObjects ++ [env.newHandleId] },
       some env.newHandleId, ret_status)
    | h :: t =>
      ({ c with availableNdbObjects := t }, some h, RS_OK)

/-- The first block of RDRSRonDBConnection::ReturnNDBObjectToPool: the handle
is appended to the back of availableNdbObjects unconditionally under
connectionMutex. -/
def returnToPoolState (c : RDRSRonDBConnection) (ndb_object : Nat) :
    RDRSRonDBConnection :=
  { c with availableNdbObjects := c.availableNdbObjects ++ [ndb_object] }

/-- RDRSRonDBConnection::ReturnNDBObjectToPool: the handle is returned to the
pool unconditionally (returnToPoolState); afterwards, when the caller
supplied a non-null status with http_code ≠ SUCCESS whose classification is
UnknownResultError, Reconnect is invoked on the appended state.  The
returned Bool records whether Reconnect was invoked; the C++ function
returns void (it never fails). -/
def ReturnNDBObjectToPool (c : RDRSRonDBConnection) (ndb_object : Nat)
    (status : Option RS_Status) (newWorkerId : Nat) (spawnOk : Bool) :
    RDRSRonDBConnection × Bool :=
  match status with
  | none => (returnToPoolState c ndb_object, false)
  | some s =>
    if s.http_code ≠ SUCCESS then
      if s.classification = UnknownResultError then
        ((Reconnect (returnToPoolState c ndb_object) newWorkerId spawnOk).1, true)
      else (returnToPoolState c ndb_object, false)
    else (returnToPoolState c ndb_object, false)

/-- RDRSRonDBConnection::GetStats: refreshes ndb_objects_available from the
size of availableNdbObjects, then returns a copy of the stats record. -/
def GetStats (c : RDRSRonDBConnection) : RDRSRonDBConnection × RonDB_Stats :=
  let stats := { c.stats with
    ndb_objects_available := c.availableNdbObjects.length }
  ({ c with stats := stats }, stats)

/-- RDRSRonDBConnection::Shutdown.  When end is true, is_shutting_down is set
first.  The drain loop only reads the pool and sleeps (it terminates at once
when availableNdbObjects.size equals ndb_objects_created and after 120
seconds otherwise, the difference being logging only), so the sequential
model elides it.  Then: connection_state := DISCONNECTED; every handle in
allAvailableNdbObjects is destroyed and both sequences cleared; all four
handle counters reset to 0; ndbConnection deleted and nulled; finally, when
end is true, is_shutdown := true, is_shutting_down := false, the connection
string is freed and the reconnection thread descriptor destroyed.  The
return value is RS_OK on every path. -/
def Shutdown (c : RDRSRonDBConnection) (e : Bool) :
    RDRSRonDBConnection × RS_Status :=
  let c1 :=
    if e then { c with stats := { c.stats with is_shutting_down := true } }
    else c
  let c2 := { c1 with
    stats := { c1.stats with connection_state := STATE.DISCONNECTED } }
  let c3 := { c2 with
    availableNdbObjects := []
    allAvailableNdbObjects := []
    stats := { c2.stats with
      ndb_objects_available := 0
      ndb_objects_count := 0
      ndb_objects_created := 0
      ndb_objects_deleted := 0 } }
  let c4 := { c3 with ndbConnection := none }
  let c5 :=
    if e then
      { c4 with
        stats := { c4.stats with
          is_shutdown := true
          is_shutting_down := false }
        connection_string := none
        reconnectionThread := none }
    else c4
  (c5, RS_OK)

/-- The block that clears stats.is_reconnection_in_progress under
connectionInfoMutex, used on every exit path of ReconnectHandler. -/
def clearReconnectFlag (c : RDRSRonDBConnection) : RDRSRonDBConnection :=
  { c with stats := { c.stats with is_reconnection_in_progress := false } }

/-- RDRSRonDBConnection::ReconnectHandler, the body of the background
reconnection worker.  Returns none where require(is_reconnection_in_progress)
aborts, or where the inner Connect hits one of its own require assertions.
Otherwise: Shutdown(end = false), then Connect, clearing the flag on the
Shutdown-failure path, on the Connect-failure path and on success. -/
def ReconnectHandler (c : RDRSRonDBConnection) (env : DriverEnv) :
    Option (RDRSRonDBConnection × RS_Status) :=
  if !c.stats.is_reconnection_in_progress then
    none
  else
    if (Shutdown c false).2.http_code ≠ SUCCESS then
      some (clearReconnectFlag (Shutdown c false).1,
        RS_SERVER_ERROR
          ("Reconnection. Shutdown failed. code: " ++
           toString (Shutdown c false).2.code ++
           " Classification: " ++ toString (Shutdown c false).2.classification ++
           " Msg: " ++ (Shutdown c false).2.message))
    else
      match Connect (Shutdown c false).1 env with
      | none => none
      | some r2 =>
        if r2.2.http_code ≠ SUCCESS then
          some (clearReconnectFlag r2.1,
            RS_SERVER_ERROR
              ("Reconnection. Connection failed. code: " ++ toString r2.2.code ++
               " Classification: " ++ toString r2.2.classification ++
               " Msg: " ++ r2.2.message))
        else
          some (clearReconnectFlag r2.1, RS_OK)

/-- A freshly constructed pool, as in the happy-path scenario of the spec. -/
def pool0 : RDRSRonDBConnection := mkRDRSRonDBConnection "host:1186" 101 5 5

/-- A connected pool whose only available handle is handle 5. -/
def connectedPool : RDRSRonDBConnection :=
  { stats :=
      { ndb_objects_available := 1
        ndb_objects_count := 1
        ndb_objects_created := 1
        ndb_objects_deleted := 0
        is_reconnection_in_progress := false
        is_shutdown := false
        is_shutting_down := false
        connection_state := STATE.CONNECTED }
    availableNdbObjects := [5]
    allAvailableNdbObjects := [5]
    ndbConnection := some 1
    reconnectionThread := none
    connection_string := some "host:1186"
    m_node_id := 101
    connection_retries := 5
    connection_retry_delay_in_sec := 5 }

/-- A connected pool with no available handles (every Acquire lazily grows). -/
def connectedEmptyPool : RDRSRonDBConnection :=
  { stats :=
      { ndb_objects_available := 0
        ndb_objects_count := 0
        ndb_objects_created := 0
        ndb_objects_deleted := 0
        is_reconnection_in_progress := false
        is_shutdown := false
        is_shutting_down := false
        connection_state := STATE.CONNECTED }
    availableNdbObjects := []
    allAvailableNdbObjects := []
    ndbConnection := some 1
    reconnectionThread := none
    connection_string := some "host:1186"
    m_node_id := 101
    connection_retries := 5
    connection_retry_delay_in_sec := 5 }

/-- A disconnected pool with a reconnection already in progress. -/
def inFlightPool : RDRSRonDBConnection :=
  { pool0 with
      stats := { pool0.stats with is_reconnection_in_progress := true }
      reconnectionThread := some 2 }

/-- Reconnect never touches the available-handle sequence. -/
theorem reconnect_fst_availableNdbObjects (c : RDRSRonDBConnection)
    (w : Nat) (ok : Bool) :
    (Reconnect c w ok).1.availableNdbObjects = c.availableNdbObjects := by
  unfold Reconnect
  split <;> rfl

/-- C8: Shutdown(end) returns the OK status for every value of end and from
every state in which it is called; the drain-timeout case differs only in
logging, and the teardown is still attempted. -/
theorem shutdown_returns_ok (c : RDRSRonDBConnection) (e : Bool) :
    (Shutdown c e).2 = RS_OK := rfl

/-- ReturnNDBObjectToPool appends the handle to the back of
availableNdbObjects on every path. -/
theorem returnToPool_appends (c : RDRSRonDBConnection) (hd : Nat)
    (s : Option RS_Status) (w : Nat) (ok : Bool) :
    (ReturnNDBObjectToPool c hd s w ok).1.availableNdbObjects
      = c.availableNdbObjects ++ [hd] := by
  unfold ReturnNDBObjectToPool
  cases s with
  | none => simp [returnToPoolState]
  | some st =>
    by_cases h1 : st.http_code = SUCCESS <;>
      by_cases h2 : st.classification = UnknownResultError <;>
        simp [h1, h2, returnToPoolState, reconnect_fst_availableNdbObjects]

/-- C3: ReturnNDBObjectToPool appends the handle to the back of
availableNdbObjects unconditionally, never fails (it returns no status),
and invokes Reconnect exactly when the caller supplied an error status
whose classification is UnknownResultError — and then only on the state in
which the handle has already been returned to the pool. -/
theorem returnNDBObjectToPool_appends_and_triggers (c : RDRSRonDBConnection)
    (h : Nat) (s : Option RS_Status) (w : Nat) (ok : Bool) :
    ((ReturnNDBObjectToPool c h s w ok).1.availableNdbObjects
        = c.availableNdbObjects ++ [h]) ∧
    ((ReturnNDBObjectToPool c h s w ok).2 = true ↔
      ∃ st, s = some st ∧ st.http_code ≠ SUCCESS ∧
        st.classification = UnknownResultError) ∧
    (∀ st, s = some st → st.http_code ≠ SUCCESS →
       st.classification = UnknownResultError →
       (ReturnNDBObjectToPool c h s w ok).1 =
         (Reconnect
           { c with availableNdbObjects := c.availableNdbObjects ++ [h] }
           w ok).1) := by
  unfold ReturnNDBObjectToPool
  cases s with
  | none => simp [returnToPoolState]
  | some st =>
    by_cases h1 : st.http_code = SUCCESS <;>
      by_cases h2 : st.classification = UnknownResultError <;>
        simp [h1, h2, returnToPoolState, reconnect_fst_availableNdbObjects]

/-- C9: availableNdbObjects obeys FIFO discipline — a connected,
non-shutting-down Acquire with a non-empty available sequence pops and
returns the front element, and Release appends to the back; with a single
available handle the next Acquire therefore returns exactly it. -/
theorem available_handles_fifo (c : RDRSRonDBConnection) (env : AcquireEnv)
    (x : Nat) (xs : List Nat) (hd : Nat) (s : Option RS_Status)
    (w : Nat) (ok : Bool)
    (h1 : c.stats.is_shutdown = false)
    (h2 : c.stats.is_shutting_down = false)
    (h3 : c.stats.connection_state = STATE.CONNECTED)
    (h4 : c.availableNdbObjects = x :: xs) :
    GetNdbObject c env = ({ c with availableNdbObjects := xs }, some x, RS_OK) ∧
    (ReturnNDBObjectToPool c hd s w ok).1.availableNdbObjects
      = c.availableNdbObjects ++ [hd] := by
  constructor
  · unfold GetNdbObject
    simp [h1, h2, h3, h4]
  · exact returnToPool_appends c hd s w ok

/-- C9 witness: on the connected pool whose only available handle is 5, the
next Acquire returns handle 5 and leaves the sequence empty. -/
theorem available_handles_fifo_witness :
    GetNdbObject connectedPool (AcquireEnv.mk 9 0 3 true)
        = ({ connectedPool with availableNdbObjects := [] }, some 5, RS_OK) ∧
    (ReturnNDBObjectToPool connectedPool 5 none 3 true).1.availableNdbObjects
        = connectedPool.availableNdbObjects ++ [5] :=
  available_handles_fifo connectedPool (AcquireEnv.mk 9 0 3 true)
    5 [] 5 none 3 true rfl rfl rfl rfl

/-- C4: Acquire on a pool that is neither shut down nor shutting down and not
CONNECTED returns the NotConnected error (ERROR_033) without waiting;
it triggers Reconnect exactly when no reconnection was in progress at the
snapshot, and otherwise leaves the state untouched. -/
theorem getNdbObject_not_connected (c : RDRSRonDBConnection) (env : AcquireEnv)
    (h1 : c.stats.is_shutdown = false)
    (h2 : c.stats.is_shutting_down = false)
    (h3 : c.stats.connection_state ≠ STATE.CONNECTED) :
    (GetNdbObject c env).2.2 = RS_SERVER_ERROR ERROR_033 ∧
    (c.stats.is_reconnection_in_progress = false →
       GetNdbObject c env =
         ((Reconnect c env.newWorkerId env.spawnOk).1, none,
          RS_SERVER_ERROR ERROR_033)) ∧
    (c.stats.is_reconnection_in_progress = true →
       GetNdbObject c env = (c, none, RS_SERVER_ERROR ERROR_033)) := by
  unfold GetNdbObject
  by_cases hr : c.stats.is_reconnection_in_progress <;>
    simp [h1, h2, h3, hr]

/-- C4 witness: on the fresh disconnected pool, Acquire triggers a
reconnection and fails with ERROR_033. -/
theorem getNdbObject_not_connected_witness :
    (GetNdbObject pool0 (AcquireEnv.mk 9 0 3 true)).2.2
        = RS_SERVER_ERROR ERROR_033 ∧
    (pool0.stats.is_reconnection_in_progress = false →
       GetNdbObject pool0 (AcquireEnv.mk 9 0 3 true) =
         ((Reconnect pool0 3 true).1, none, RS_SERVER_ERROR ERROR_033)) ∧
    (pool0.stats.is_reconnection_in_progress = true →
       GetNdbObject pool0 (AcquireEnv.mk 9 0 3 true)
         = (pool0, none, RS_SERVER_ERROR ERROR_033)) :=
  getNdbObject_not_connected pool0 (AcquireEnv.mk 9 0 3 true)
    rfl rfl (by decide)

/-- C5: Reconnect called while a reconnection is in progress returns the
ReconnectInFlight error (ERROR_036) and changes no state at all (flag,
worker descriptor and everything else untouched); consequently two
back-to-back Reconnect calls on a pool with no reconnection in flight
return OK then ERROR_036, the second changing nothing, so at most one
worker is spawned. -/
theorem reconnect_in_flight_noop (c c0 : RDRSRonDBConnection)
    (w w2 : Nat) (ok ok2 : Bool)
    (h : c.stats.is_reconnection_in_progress = true)
    (h0 : c0.stats.is_reconnection_in_progress = false) :
    Reconnect c w ok = (c, RS_SERVER_ERROR ERROR_036) ∧
    (Reconnect c0 w ok).2 = RS_OK ∧
    Reconnect (Reconnect c0 w ok).1 w2 ok2
      = ((Reconnect c0 w ok).1, RS_SERVER_ERROR ERROR_036) := by
  unfold Reconnect
  simp [h, h0]

/-- C5 witness: with a reconnection in flight, Reconnect is a no-op returning
ERROR_036; from the fresh pool, Reconnect then Reconnect give OK then
ERROR_036 with no further state change. -/
theorem reconnect_in_flight_noop_witness :
    Reconnect inFlightPool 3 true = (inFlightPool, RS_SERVER_ERROR ERROR_036) ∧
    (Reconnect pool0 3 true).2 = RS_OK ∧
    Reconnect (Reconnect pool0 3 true).1 4 true
      = ((Reconnect pool0 3 true).1, RS_SERVER_ERROR ERROR_036) :=
  reconnect_in_flight_noop inFlightPool pool0 3 4 true true rfl rfl

/-- C1: evaluation of the lazy-grow branch at a failing init.  On the
connected pool with no available handle and init() returning 1, GetNdbObject
returns the HandleInitFailed error (ERROR_004), BUT the source increments
ndb_objects_created and ndb_objects_count, records the failed handle in
allAvailableNdbObjects, and destroys only the out-parameter pointer (the
`delete ndb_object` slip), not the just-constructed handle. -/
theorem getNdbObject_init_failure_behavior :
    (GetNdbObject connectedEmptyPool (AcquireEnv.mk 7 1 3 true)).2.2
        = RS_SERVER_ERROR (ERROR_004 ++ " RetCode: " ++ toString (1 : Int)) ∧
    (GetNdbObject connectedEmptyPool
        (AcquireEnv.mk 7 1 3 true)).1.stats.ndb_objects_created
        = connectedEmptyPool.stats.ndb_objects_created + 1 ∧
    (GetNdbObject connectedEmptyPool
        (AcquireEnv.mk 7 1 3 true)).1.stats.ndb_objects_count
        = connectedEmptyPool.stats.ndb_objects_count + 1 ∧
    (GetNdbObject connectedEmptyPool
        (AcquireEnv.mk 7 1 3 true)).1.allAvailableNdbObjects
        = connectedEmptyPool.allAvailableNdbObjects ++ [7] := by
  refine ⟨?_, rfl, rfl, rfl⟩
  rfl

/-- C2 counterexample: on the fresh pool with the driver connect step
returning 1, Connect returns a failure (http_code ≠ SUCCESS) yet leaves
driver_connection non-null (the just-allocated connection, id 1) while
connection_state stays DISCONNECTED — refuting the claim that every failed
Connect leaves driver_connection = null. -/
theorem connect_failure_nonnull_connection_cex :
    Connect pool0 (DriverEnv.mk 1 1 0 0 "") =
      some ({ pool0 with ndbConnection := some 1 },
            RS_SERVER_ERROR (ERROR_002 ++ " RetCode: " ++ toString (1 : Int))) ∧
    ({ pool0 with ndbConnection := some 1 }).ndbConnection ≠ none ∧
    ({ pool0 with ndbConnection := some 1 }).stats.connection_state
        = STATE.DISCONNECTED ∧
    (RS_SERVER_ERROR (ERROR_002 ++ " RetCode: "
        ++ toString (1 : Int))).http_code ≠ SUCCESS := by
  refine ⟨rfl, by simp, rfl, by decide⟩

/-- C2 amended: a failed Connect never changes connection_state (so the pool
stays DISCONNECTED when it was), but when the failure arose in the driver
connect or wait-until-ready step (the pool being neither shut down nor
shutting down) it leaves driver_connection set to the just-allocated
connection, not null; Shutdown, by contrast, always leaves
driver_connection = null.  The invariant driver_connection ≠ null iff
CONNECTED therefore fails after a driver-stage Connect failure. -/
theorem connect_failure_amended (c : RDRSRonDBConnection) (env : DriverEnv)
    (c' : RDRSRonDBConnection) (st : RS_Status) (e : Bool)
    (hcall : Connect c env = some (c', st))
    (hfail : st.http_code ≠ SUCCESS) :
    c'.stats.connection_state = c.stats.connection_state ∧
    (c.stats.is_shutdown = false → c.stats.is_shutting_down = false →
       c'.ndbConnection = some env.newConnId) ∧
    (Shutdown c e).1.ndbConnection = none := by
  have hsd : (Shutdown c e).1.ndbConnection = none := by
    unfold Shutdown
    cases e <;> rfl
  by_cases hflag : (c.stats.is_shutdown || c.stats.is_shutting_down) = true
  · unfold Connect at hcall
    rw [if_pos hflag] at hcall
    simp only [Option.some.injEq, Prod.mk.injEq] at hcall
    obtain ⟨h1, _⟩ := hcall
    subst h1
    refine ⟨rfl, ?_, hsd⟩
    intro hs1 hs2
    rw [hs1, hs2] at hflag
    simp at hflag
  · unfold Connect at hcall
    rw [if_neg hflag] at hcall
    by_cases hcs : c.stats.connection_state = STATE.CONNECTED
    · rw [if_pos hcs] at hcall
      exact absurd hcall (by simp)
    · rw [if_neg hcs] at hcall
      cases hnc : c.ndbConnection with
      | some v =>
        rw [hnc] at hcall
        exact absurd hcall (by simp)
      | none =>
        rw [hnc] at hcall
        by_cases hcr : env.connectRet = 0
        · by_cases hwr : env.waitReadyRet = 0
          · simp [hcr, hwr] at hcall
            obtain ⟨_, h2⟩ := hcall
            exact absurd (h2 ▸ rfl) hfail
          · simp [hcr, hwr] at hcall
            obtain ⟨h1, _⟩ := hcall
            subst h1
            exact ⟨rfl, fun _ _ => rfl, hsd⟩
        · simp [hcr] at hcall
          obtain ⟨h1, _⟩ := hcall
          subst h1
          exact ⟨rfl, fun _ _ => rfl, hsd⟩

/-- C2 witness for the amended claim, at the fresh pool with the driver
connect step failing with return code 1. -/
theorem connect_failure_amended_witness :
    ({ pool0 with ndbConnection := some 1 } :
        RDRSRonDBConnection).stats.connection_state
      = pool0.stats.connection_state ∧
    (pool0.stats.is_shutdown = false → pool0.stats.is_shutting_down = false →
       ({ pool0 with ndbConnection := some 1 } :
           RDRSRonDBConnection).ndbConnection
         = some (DriverEnv.mk 1 1 0 0 "").newConnId) ∧
    (Shutdown pool0 true).1.ndbConnection = none :=
  connect_failure_amended pool0 (DriverEnv.mk 1 1 0 0 "")
    { pool0 with ndbConnection := some 1 }
    (RS_SERVER_ERROR (ERROR_002 ++ " RetCode: " ++ toString (1 : Int))) true
    rfl (by decide)

/-- C7: ReconnectHandler, under its own precondition that a reconnection is
in progress, runs Shutdown(end = false) and then Connect, and clears
is_reconnection_in_progress on every exit path: Shutdown failure, Connect
failure, and success. -/
theorem reconnectHandler_clears_flag (c : RDRSRonDBConnection)
    (env : DriverEnv)
    (h : c.stats.is_reconnection_in_progress = true) :
    ∃ p, ReconnectHandler c env = some p ∧
      p.1.stats.is_reconnection_in_progress = false := by
  unfold ReconnectHandler Shutdown Connect clearReconnectFlag
  by_cases h1 : c.stats.is_shutdown = true <;>
    by_cases h2 : c.stats.is_shutting_down = true <;>
      by_cases h3 : env.connectRet = 0 <;>
        by_cases h4 : env.waitReadyRet = 0 <;>
          simp_all [RS_OK, RS_SERVER_ERROR, SUCCESS]

/-- C7 witness: on the pool with a reconnection in flight and a succeeding
driver, the handler runs and clears the flag. -/
theorem reconnectHandler_clears_flag_witness :
    ∃ p, ReconnectHandler inFlightPool (DriverEnv.mk 1 0 0 0 "") = some p ∧
      p.1.stats.is_reconnection_in_progress = false :=
  reconnectHandler_clears_flag inFlightPool (DriverEnv.mk 1 0 0 0 "") rfl

/-- One public-API step of the pool: any call to Connect, GetNdbObject,
ReturnNDBObjectToPool, Shutdown, Reconnect, ReconnectHandler or GetStats
with arbitrary oracle inputs, excluding runs that abort on a require(). -/
inductive Step : RDRSRonDBConnection → RDRSRonDBConnection → Prop where
  | connect (c : RDRSRonDBConnection) (env : DriverEnv)
      (c' : RDRSRonDBConnection) (st : RS_Status)
      (h : Connect c env = some (c', st)) : Step c c'
  | acquire (c : RDRSRonDBConnection) (env : AcquireEnv)
      (c' : RDRSRonDBConnection) (o : Option Nat) (st : RS_Status)
      (h : GetNdbObject c env = (c', o, st)) : Step c c'
  | release (c : RDRSRonDBConnection) (hd : Nat) (s : Option RS_Status)
      (w : Nat) (ok : Bool) (c' : RDRSRonDBConnection) (trig : Bool)
      (h : ReturnNDBObjectToPool c hd s w ok = (c', trig)) : Step c c'
  | shutdown (c : RDRSRonDBConnection) (e : Bool)
      (c' : RDRSRonDBConnection) (st : RS_Status)
      (h : Shutdown c e = (c', st)) : Step c c'
  | reconnect (c : RDRSRonDBConnection) (w : Nat) (ok : Bool)
      (c' : RDRSRonDBConnection) (st : RS_Status)
      (h : Reconnect c w ok = (c', st)) : Step c c'
  | handler (c : RDRSRonDBConnection) (env : DriverEnv)
      (c' : RDRSRonDBConnection) (st : RS_Status)
      (h : ReconnectHandler c env = some (c', st)) : Step c c'
  | getStats (c : RDRSRonDBConnection)
      (c' : RDRSRonDBConnection) (s : RonDB_Stats)
      (h : GetStats c = (c', s)) : Step c c'

/-- States reachable from a given state by public-API steps. -/
def ReachableFrom (c c' : RDRSRonDBConnection) : Prop :=
  Relation.ReflTransGen Step c c'

/-- States reachable from a freshly constructed pool. -/
def Reachable (cs : String) (nid r d : Nat) (c : RDRSRonDBConnection) : Prop :=
  ReachableFrom (mkRDRSRonDBConnection cs nid r d) c

/-- Reconnect changes neither is_shutdown nor ndb_objects_deleted. -/
theorem reconnect_frame (c : RDRSRonDBConnection) (w : Nat) (ok : Bool) :
    (Reconnect c w ok).1.stats.is_shutdown = c.stats.is_shutdown ∧
    (Reconnect c w ok).1.stats.ndb_objects_deleted
      = c.stats.ndb_objects_deleted := by
  unfold Reconnect
  split <;> exact ⟨rfl, rfl⟩

/-- Connect changes neither is_shutdown nor ndb_objects_deleted. -/
theorem connect_frame (c : RDRSRonDBConnection) (env : DriverEnv)
    (p : RDRSRonDBConnection × RS_Status) (h : Connect c env = some p) :
    p.1.stats.is_shutdown = c.stats.is_shutdown ∧
    p.1.stats.ndb_objects_deleted = c.stats.ndb_objects_deleted := by
  unfold Connect at h
  split at h
  · injection h with h2
    subst h2
    exact ⟨rfl, rfl⟩
  · split at h
    · exact absurd h (by simp)
    · split at h
      · exact absurd h (by simp)
      · split at h
        · injection h with h2
          subst h2
          exact ⟨rfl, rfl⟩
        · split at h
          · injection h with h2
            subst h2
            exact ⟨rfl, rfl⟩
          · injection h with h2
            subst h2
            exact ⟨rfl, rfl⟩

/-- GetNdbObject changes neither is_shutdown nor ndb_objects_deleted. -/
theorem getNdbObject_frame (c : RDRSRonDBConnection) (env : AcquireEnv) :
    (GetNdbObject c env).1.stats.is_shutdown = c.stats.is_shutdown ∧
    (GetNdbObject c env).1.stats.ndb_objects_deleted
      = c.stats.ndb_objects_deleted := by
  unfold GetNdbObject
  split
  · exact ⟨rfl, rfl⟩
  · split
    · split
      · exact reconnect_frame c env.newWorkerId env.spawnOk
      · exact ⟨rfl, rfl⟩
    · split
      · exact ⟨rfl, rfl⟩
      · exact ⟨rfl, rfl⟩

/-- ReturnNDBObjectToPool changes neither is_shutdown nor
ndb_objects_deleted. -/
theorem returnNDBObjectToPool_frame (c : RDRSRonDBConnection) (hd : Nat)
    (s : Option RS_Status) (w : Nat) (ok : Bool) :
    (ReturnNDBObjectToPool c hd s w ok).1.stats.is_shutdown
      = c.stats.is_shutdown ∧
    (ReturnNDBObjectToPool c hd s w ok).1.stats.ndb_objects_deleted
      = c.stats.ndb_objects_deleted := by
  unfold ReturnNDBObjectToPool
  split
  · exact ⟨rfl, rfl⟩
  · split
    · split
      · exact reconnect_frame _ w ok
      · exact ⟨rfl, rfl⟩
    · exact ⟨rfl, rfl⟩

/-- Shutdown zeroes ndb_objects_deleted and, once set, keeps is_shutdown. -/
theorem shutdown_frame (c : RDRSRonDBConnection) (e : Bool) :
    (Shutdown c e).1.stats.ndb_objects_deleted = 0 ∧
    (c.stats.is_shutdown = true → (Shutdown c e).1.stats.is_shutdown = true) := by
  cases e with
  | false => exact ⟨rfl, fun h => h⟩
  | true => exact ⟨rfl, fun _ => rfl⟩

/-- ReconnectHandler zeroes ndb_objects_deleted and preserves is_shutdown. -/
theorem reconnectHandler_frame (c : RDRSRonDBConnection) (env : DriverEnv)
    (p : RDRSRonDBConnection × RS_Status) (h : ReconnectHandler c env = some p) :
    p.1.stats.is_shutdown = c.stats.is_shutdown ∧
    p.1.stats.ndb_objects_deleted = 0 := by
  unfold ReconnectHandler at h
  split at h
  · exact absurd h (by simp)
  · split at h
    · injection h with h2
      subst h2
      exact ⟨rfl, rfl⟩
    · split at h
      · exact absurd h (by simp)
      · rename_i r2 heq
        obtain ⟨f1, f2⟩ := connect_frame _ env r2 heq
        split at h <;>
          · injection h with h2
            subst h2
            exact ⟨f1, f2⟩

/-- Once is_shutdown is set, no public-API step ever clears it. -/
theorem step_preserves_is_shutdown (c c' : RDRSRonDBConnection)
    (hs : Step c c') (h : c.stats.is_shutdown = true) :
    c'.stats.is_shutdown = true := by
  cases hs with
  | connect env c' st hc =>
    exact ((connect_frame c env (c', st) hc).1).trans h
  | acquire env c' o st hq =>
    have f := (getNdbObject_frame c env).1
    rw [hq] at f
    exact f.trans h
  | release hd s w ok c' trig hr =>
    have f := (returnNDBObjectToPool_frame c hd s w ok).1
    rw [hr] at f
    exact f.trans h
  | shutdown e c' st hsd =>
    have f := (shutdown_frame c e).2 h
    rw [hsd] at f
    exact f
  | reconnect w ok c' st hr =>
    have f := (reconnect_frame c w ok).1
    rw [hr] at f
    exact f.trans h
  | handler env c' st hh =>
    exact ((reconnectHandler_frame c env (c', st) hh).1).trans h
  | getStats c' s hg =>
    have f : (GetStats c).1.stats.is_shutdown = c.stats.is_shutdown := rfl
    rw [hg] at f
    exact f.trans h

/-- No public-API step can make ndb_objects_deleted non-zero. -/
theorem step_preserves_deleted_zero (c c' : RDRSRonDBConnection)
    (hs : Step c c') (h : c.stats.ndb_objects_deleted = 0) :
    c'.stats.ndb_objects_deleted = 0 := by
  cases hs with
  | connect env c' st hc =>
    exact ((connect_frame c env (c', st) hc).2).trans h
  | acquire env c' o st hq =>
    have f := (getNdbObject_frame c env).2
    rw [hq] at f
    exact f.trans h
  | release hd s w ok c' trig hr =>
    have f := (returnNDBObjectToPool_frame c hd s w ok).2
    rw [hr] at f
    exact f.trans h
  | shutdown e c' st hsd =>
    have f := (shutdown_frame c e).1
    rw [hsd] at f
    exact f
  | reconnect w ok c' st hr =>
    have f := (reconnect_frame c w ok).2
    rw [hr] at f
    exact f.trans h
  | handler env c' st hh =>
    exact (reconnectHandler_frame c env (c', st) hh).2
  | getStats c' s hg =>
    have f : (GetStats c).1.stats.ndb_objects_deleted
        = c.stats.ndb_objects_deleted := rfl
    rw [hg] at f
    exact f.trans h

/-- C6: after Shutdown(end = true) returns, is_shutdown is set, the
is_shutting_down flag is cleared, the handle counters ndb_objects_count,
ndb_objects_created, ndb_objects_deleted and ndb_objects_available are all
zero, and every Acquire on any state subsequently reachable through the
public API returns the ShutdownRejected error (ERROR_034). -/
theorem shutdown_end_terminal (c c2 : RDRSRonDBConnection) (env : AcquireEnv)
    (h : ReachableFrom (Shutdown c true).1 c2) :
    (Shutdown c true).1.stats.is_shutdown = true ∧
    (Shutdown c true).1.stats.is_shutting_down = false ∧
    (Shutdown c true).1.stats.ndb_objects_count = 0 ∧
    (Shutdown c true).1.stats.ndb_objects_created = 0 ∧
    (Shutdown c true).1.stats.ndb_objects_deleted = 0 ∧
    (Shutdown c true).1.stats.ndb_objects_available = 0 ∧
    (GetNdbObject c2 env).2.2 = RS_SERVER_ERROR ERROR_034 := by
  have h2 : c2.stats.is_shutdown = true := by
    unfold ReachableFrom at h
    induction h with
    | refl => rfl
    | tail hsteps hstep ih => exact step_preserves_is_shutdown _ _ hstep ih
  refine ⟨rfl, rfl, rfl, rfl, rfl, rfl, ?_⟩
  unfold GetNdbObject
  rw [h2]
  simp

/-- C6 witness: on the fresh pool, the state right after Shutdown(end = true)
has all flags and counters as claimed and rejects the next Acquire. -/
theorem shutdown_end_terminal_witness :
    (Shutdown pool0 true).1.stats.is_shutdown = true ∧
    (Shutdown pool0 true).1.stats.is_shutting_down = false ∧
    (Shutdown pool0 true).1.stats.ndb_objects_count = 0 ∧
    (Shutdown pool0 true).1.stats.ndb_objects_created = 0 ∧
    (Shutdown pool0 true).1.stats.ndb_objects_deleted = 0 ∧
    (Shutdown pool0 true).1.stats.ndb_objects_available = 0 ∧
    (GetNdbObject (Shutdown pool0 true).1 (AcquireEnv.mk 9 0 3 true)).2.2
      = RS_SERVER_ERROR ERROR_034 :=
  shutdown_end_terminal pool0 (Shutdown pool0 true).1 (AcquireEnv.mk 9 0 3 true)
    Relation.ReflTransGen.refl

/-- C10: in every state reachable from a freshly constructed pool through
the public API, the ndb_objects_deleted counter is 0 — it starts at 0, no
operation increments it, and Shutdown resets it to 0 — so GetStats always
reports handles_deleted = 0. -/
theorem ndb_objects_deleted_always_zero (cs : String) (nid r d : Nat)
    (c : RDRSRonDBConnection) (h : Reachable cs nid r d c) :
    c.stats.ndb_objects_deleted = 0 ∧
    (GetStats c).2.ndb_objects_deleted = 0 := by
  have key : c.stats.ndb_objects_deleted = 0 := by
    unfold Reachable ReachableFrom at h
    induction h with
    | refl => rfl
    | tail hsteps hstep ih => exact step_preserves_deleted_zero _ _ hstep ih
  exact ⟨key, key⟩

/-- C10 witness: at the freshly constructed pool itself. -/
theorem ndb_objects_deleted_always_zero_witness :
    pool0.stats.ndb_objects_deleted = 0 ∧
    (GetStats pool0).2.ndb_objects_deleted = 0 :=
  ndb_objects_deleted_always_zero "host:1186" 101 5 5 pool0
    Relation.ReflTransGen.refl
